import Mathlib

/-!
A shallow embedding of the core pipeline engine and field/options model of the
kim object-mapping library (`kim/pipelines/base.py`, `kim/pipelines/string.py`,
`kim/field.py`), together with theorems settling the frozen claims about it.

Python values in flight through a pipeline are modelled by `Value` (Python
`None` is `Value.none`); Python exceptions are modelled by `Except`, with the
error carrying the session as mutated so far (Python mutates the session object
in place, so the state at raise time is visible to the catcher).
-/

namespace Kim

mutual

/-- Python values handled by the pipeline engine: `None`, text, integers,
booleans and (possibly nested) dictionaries with string keys.  Dictionaries
are modelled as association lists (`Entries`). -/
inductive Value where
  | none
  | str (s : String)
  | int (n : Int)
  | bool (b : Bool)
  | dict (entries : Entries)

/-- The entries of a Python dictionary: an ordered association list from
string keys to values. -/
inductive Entries where
  | nil
  | cons (key : String) (val : Value) (rest : Entries)

end

/-- Python `is None` test on a value. -/
def Value.isNone : Value → Bool
  | .none => true
  | _ => false

mutual

/-- Python `==` on the modelled values (e.g. the `in` membership test of
`is_valid_choice`).  Python compares dict entries without regard to order;
no claim compares dictionaries, so ordered comparison is adequate here. -/
def Value.beq : Value → Value → Bool
  | .none, .none => true
  | .str a, .str b => a == b
  | .int a, .int b => a == b
  | .bool a, .bool b => a == b
  | .dict a, .dict b => Entries.beq a b
  | _, _ => false

/-- Pointwise equality of dictionary entries. -/
def Entries.beq : Entries → Entries → Bool
  | .nil, .nil => true
  | .cons k₁ v₁ t₁, .cons k₂ v₂ t₂ => k₁ == k₂ && Value.beq v₁ v₂ && Entries.beq t₁ t₂
  | _, _ => false

end

/-- Python `in`: membership of a value in a list of values, by `==`. -/
def valueMem (v : Value) : List Value → Bool
  | [] => false
  | x :: xs => Value.beq v x || valueMem v xs

/-- Look up a key in dictionary entries; Python dict `.get(k)` returns `None`
when the key is absent. -/
def Entries.lookup : Entries → String → Value
  | .nil, _ => .none
  | .cons k v rest, key => if k == key then v else Entries.lookup rest key

/-- Set a key in dictionary entries (Python `d[k] = v`): replace the first
binding of the key, or append a new binding. -/
def Entries.set : Entries → String → Value → Entries
  | .nil, key, v => .cons key v .nil
  | .cons k v' rest, key, v =>
      if k == key then .cons key v rest else .cons k v' (Entries.set rest key v)

/-- The exceptions of `kim/exception.py` (whose file is not in the source tree;
the classes are fully determined by their raise/except sites in
`pipelines/base.py` and `field.py`), plus Python's builtin `AttributeError`,
which `field.py` can let escape.  `FieldInvalid` carries the `error_type` key
used to select the message from `DEFAULT_ERROR_MSGS`; the message-template
interpolation of `Field.get_error` is not consumed by any claim and is not
modelled. -/
inductive KimError where
  | fieldInvalid (error_type : String)
  | fieldError (msg : String)
  | fieldOptsError (msg : String)
  | stopPipelineExecution
  | attributeError
  deriving Repr, DecidableEq

/-- Python truthiness of an optional string: `None` and `''` are falsy. -/
def pyTruthy : Option String → Bool
  | Option.none => false
  | some s => !s.isEmpty

/-- Python `a or b` on optional strings: returns `a` when truthy, else `b`. -/
def pyOr (a b : Option String) : Option String :=
  if pyTruthy a then a else b

/-- The keyword arguments accepted by `FieldOpts.__init__` (`field.py`), with
the Python default for every option a caller may omit.  (`error_msgs`,
`null_default` and the extra-pipe hooks are accepted by the source constructor
but consumed by no claim, so they are not modelled.) -/
structure OptArgs where
  name : Option String := Option.none
  attribute_name : Option String := Option.none
  source : Option String := Option.none
  required : Bool := true
  default : Value := Value.none
  allow_none : Bool := true
  read_only : Bool := false
  choices : Option (List Value) := Option.none
  _is_wrapped : Bool := false

/-- The state of a constructed `FieldOpts` instance (`field.py`): the resolved
naming triple plus the stored configuration flags. -/
structure FieldOpts where
  name : Option String
  attribute_name : Option String
  source : Option String
  required : Bool
  default : Value
  allow_none : Bool
  read_only : Bool
  choices : Option (List Value)
  _is_wrapped : Bool

/-- `FieldOpts.set_name` (`field.py` lines 134-145): sequential pythonic-`or`
fallbacks, each line reading the fields already updated by the previous one:
`attribute_name = attribute_name or arg; name = name or arg or attribute_name;
source = source or arg or name`. -/
def FieldOpts.set_name (o : FieldOpts) (name attribute_name source : Option String) :
    FieldOpts :=
  let attribute_name' := pyOr o.attribute_name attribute_name
  let name' := pyOr o.name (pyOr name attribute_name')
  let source' := pyOr o.source (pyOr source name')
  { o with name := name', attribute_name := attribute_name', source := source' }

/-- `FieldOpts.get_name` (`field.py`): returns the resolved `name`. -/
def FieldOpts.get_name (o : FieldOpts) : Option String :=
  o.name

/-- `FieldOpts.__init__` (`field.py` lines 59-109): naming starts as
`None, None, None`, is resolved by `set_name`, then the remaining options are
stored with their defaults.  The base `validate` hook is a no-op, so base
construction never raises. -/
def FieldOpts.ofArgs (a : OptArgs) : FieldOpts :=
  let o : FieldOpts :=
    { name := Option.none, attribute_name := Option.none, source := Option.none,
      required := a.required, default := a.default, allow_none := a.allow_none,
      read_only := a.read_only, choices := a.choices, _is_wrapped := a._is_wrapped }
  o.set_name a.name a.attribute_name a.source

/-- A `Field` instance (`field.py`): owns exactly one `FieldOpts`.  The static
pipeline-class references are selected per concrete run in this model. -/
structure KimField where
  opts : FieldOpts

/-- The `Field.name` property (`field.py` lines 223-242): returns the resolved
name, raising `FieldError` when it is falsy (`None` or empty). -/
def KimField.name (f : KimField) : Except KimError String :=
  match f.opts.get_name with
  | some s =>
      if s.isEmpty then
        .error (.fieldError "Field requires Field.name or Field.attribute_name")
      else .ok s
  | Option.none =>
      .error (.fieldError "Field requires Field.name or Field.attribute_name")

/-- A pipeline `Session` (`pipelines/base.py`): the state threaded from pipe to
pipe.  `data` is the value in flight, `output` the shared destination object
mutated in place.  The `parent` and `mapper_session` back-references exist only
for nested invocations and diagnostics and are touched by no claim, so they are
not modelled. -/
structure Session where
  field : KimField
  data : Value
  output : Value

/-- The result of one Python pipe call: either the mutated session together
with the function's return value (which `Pipeline.run` discards), or a raised
exception.  The error carries the session because Python mutates the session
object in place, so its state at raise time stays visible to the caller. -/
abbrev PipeResult := Except (KimError × Session) (Session × Value)

/-- A `Pipe` (`pipelines/base.py` lines 15-36): a wrapped pipe function plus
the `run_if_none` policy flag.  The `@pipe()` decorator builds exactly such an
object around each pipe function, so pipeline entries are modelled as `Pipe`
values run through `Pipe.run`. -/
structure Pipe where
  func : Session → PipeResult
  run_if_none : Bool

/-- `Pipe.run` (`pipelines/base.py` lines 29-36): run the wrapped function when
`session.data is not None`, or when it is `None` but `run_if_none` is set;
otherwise do nothing and return `session.data` unchanged. -/
def Pipe.run (p : Pipe) (s : Session) : PipeResult :=
  if !s.data.isNone then p.func s
  else if s.data.isNone && p.run_if_none then p.func s
  else .ok (s, s.data)

/-- Modelled from the spec: `kim/utils.py` is not in the source tree.  Spec
section 4.2 describes the marshal input step as "extract value for `field.name`
from the raw input"; `attr_or_key` reads the attribute or key `name` from the
object, yielding `None` when the object has no such attribute/key (scalars
carry no attributes). -/
def attr_or_key (v : Value) (name : String) : Value :=
  match v with
  | .dict entries => entries.lookup name
  | _ => .none

/-- The body of `get_data_from_name` (`pipelines/base.py` lines 140-169):
wrapped fields pass `session.data` through untouched; otherwise the value is
extracted under `field.name` and, when it is `None`, the
required/default/allow_none cascade runs before `session.data` is assigned. -/
def get_data_from_name_func (s : Session) : PipeResult :=
  if s.field.opts._is_wrapped then
    .ok (s, s.data)
  else
    match s.field.name with
    | .error e => .error (e, s)
    | .ok name =>
        let value := attr_or_key s.data name
        if value.isNone then
          if s.field.opts.required && s.field.opts.default.isNone then
            .error (.fieldInvalid "required", s)
          else if !s.field.opts.default.isNone then
            let s' := { s with data := s.field.opts.default }
            .ok (s', s'.data)
          else if !s.field.opts.allow_none then
            .error (.fieldInvalid "none_not_allowed", s)
          else
            let s' := { s with data := value }
            .ok (s', s'.data)
        else
          let s' := { s with data := value }
          .ok (s', s'.data)

/-- The `get_data_from_name` pipe: decorated with `@pipe()`, so
`run_if_none` is false. -/
def get_data_from_name : Pipe :=
  { func := get_data_from_name_func, run_if_none := false }

/-- The body of `read_only` (`pipelines/base.py` lines 205-217): raise
`StopPipelineExecution` when the field is read-only, else pass the data on. -/
def read_only_func (s : Session) : PipeResult :=
  if s.field.opts.read_only then .error (.stopPipelineExecution, s)
  else .ok (s, s.data)

/-- The `read_only` pipe: decorated with `@pipe()`, so `run_if_none` is
false. -/
def read_only : Pipe :=
  { func := read_only_func, run_if_none := false }

/-- The body of `is_valid_choice` (`pipelines/base.py` lines 220-233): when
`choices` is configured and `session.data` is not a member, raise
`invalid_choice`; otherwise return `session.data`. -/
def is_valid_choice_func (s : Session) : PipeResult :=
  match s.field.opts.choices with
  | some choices =>
      if !valueMem s.data choices then .error (.fieldInvalid "invalid_choice", s)
      else .ok (s, s.data)
  | Option.none => .ok (s, s.data)

/-- The `is_valid_choice` pipe: decorated with `@pipe()`, so `run_if_none` is
false. -/
def is_valid_choice : Pipe :=
  { func := is_valid_choice_func, run_if_none := false }

/-- The body of `update_output_to_name` (`pipelines/base.py` lines 236-253):
`setattr(output, field.name, data)` raises `AttributeError` on a dict and
falls back to key assignment; item assignment on a non-mapping raises
`TypeError`, converted to `FieldError`.  The Python function returns `None`. -/
def update_output_to_name_func (s : Session) : PipeResult :=
  match s.field.name with
  | .error e => .error (e, s)
  | .ok name =>
      match s.output with
      | .dict entries => .ok ({ s with output := .dict (entries.set name s.data) }, .none)
      | _ => .error (.fieldError "output does not support attribute or key based set operations", s)

/-- The `update_output_to_name` pipe: decorated with `@pipe(run_if_none=True)`,
so it writes even when the value in flight is `None`. -/
def update_output_to_name : Pipe :=
  { func := update_output_to_name_func, run_if_none := true }

/-- Python text coercion `six.text_type` (= `str`).  On every value kind
modelled here `str()` succeeds; the dict representation's exact text is
consumed by no pipe (only the success of the coercion is observable). -/
def text_type : Value → String
  | .none => "None"
  | .str s => s
  | .int n => toString n
  | .bool b => if b then "True" else "False"
  | .dict _ => "dict-repr"

/-- The body of `is_valid_string` (`pipelines/string.py` lines 15-26): returns
`six.text_type(session.data)`.  The `except ValueError` branch is unreachable
for the modelled value kinds (Python `str()` raises no `ValueError` on them).
Crucially the coerced text is only *returned* -- it is never assigned to
`session.data`, so it has no effect on downstream pipes. -/
def is_valid_string_func (s : Session) : PipeResult :=
  .ok (s, .str (text_type s.data))

/-- The `is_valid_string` pipe: decorated with `@pipe()`, so `run_if_none` is
false. -/
def is_valid_string : Pipe :=
  { func := is_valid_string_func, run_if_none := false }

/-- A `Pipeline` (`pipelines/base.py` lines 89-137): the four ordered pipe
groups.  The `field`/`mapper_session` constructor state is passed to `run`
directly in this model. -/
structure Pipeline where
  input_pipes : List Pipe
  validation_pipes : List Pipe
  process_pipes : List Pipe
  output_pipes : List Pipe

/-- Run a list of pipes in order over a session, stopping at the first raised
exception (the `for pipe in chain(...)` loop body of `Pipeline.run`). -/
def runPipes : List Pipe → Session → Except (KimError × Session) Session
  | [], s => .ok s
  | p :: ps, s =>
      match p.run s with
      | .ok (s', _) => runPipes ps s'
      | .error e => .error e

/-- The chained pipe list `input_pipes -> validation_pipes -> process_pipes ->
output_pipes` of `Pipeline.run`. -/
def Pipeline.allPipes (pl : Pipeline) : List Pipe :=
  pl.input_pipes ++ pl.validation_pipes ++ pl.process_pipes ++ pl.output_pipes

/-- `Pipeline.run` (`pipelines/base.py` lines 117-137): seed a fresh session
from the mapper session's data/output, run the four groups in order, return
`session.output`; `StopPipelineExecution` is caught and also returns
`session.output`, while any other exception propagates. -/
def Pipeline.run (pl : Pipeline) (field : KimField) (data output : Value) :
    Except (KimError × Session) Value :=
  let s : Session := { field := field, data := data, output := output }
  match runPipes pl.allPipes s with
  | .ok s' => .ok s'.output
  | .error (.stopPipelineExecution, s') => .ok s'.output
  | .error e => .error e

/-- Modelled from the spec: `kim/pipelines/marshaling.py` is not in the source
tree.  Spec section 4.2 gives the base marshal shape: input extracts by
`field.name`; the base pipeline adds no validation pipes of its own (type
subclasses prepend theirs, cf. `string.py`); process starts with the read-only
short-circuit; output writes to `field.name`. -/
def MarshalPipeline : Pipeline :=
  { input_pipes := [get_data_from_name],
    validation_pipes := [],
    process_pipes := [read_only],
    output_pipes := [update_output_to_name] }

/-- `StringMarshalPipeline` (`pipelines/string.py` lines 29-32): prepends
`[is_valid_string, is_valid_choice]` to the base validation pipes. -/
def StringMarshalPipeline : Pipeline :=
  { MarshalPipeline with
    validation_pipes := [is_valid_string, is_valid_choice] ++ MarshalPipeline.validation_pipes }

/-- The output object reachable by the caller after a pipeline run: the value
returned on success, or the shared in-place-mutated output object held by the
session at raise time. -/
def resultOutput : Except (KimError × Session) Value → Value
  | .ok v => v
  | .error (_, s) => s.output

/-- The `mapper_or_mapper_name` argument of `Nested` (`field.py`): either the
name of a mapper to be resolved lazily against the registry, or a direct class
reference which may or may not be a valid `Mapper` subclass. -/
inductive MapperRef where
  | byName (s : String)
  | direct (isMapper : Bool)
  deriving Repr, DecidableEq

/-- The process-wide mapper registry, keyed by mapper name. -/
abbrev Registry := List String

/-- Modelled from the spec: `kim/mapper.py` is not in the source tree.  Spec
sections 4.3 and 6 describe `get_mapper_from_registry` as `resolve(name_or_object)`
against the registry, raising a configuration (field) error when the name is
not registered or the resolved object is not a valid mapper (cf.
`tests/test_pipelines/test_nested.py`, which expects `FieldError` in both
failure cases). -/
def get_mapper_from_registry (reg : Registry) : MapperRef → Except KimError MapperRef
  | .byName s =>
      if s ∈ reg then .ok (.byName s)
      else .error (.fieldError "mapper not found in registry")
  | .direct true => .ok (.direct true)
  | .direct false => .error (.fieldError "invalid mapper type")

/-- `NestedFieldOpts` (`field.py` lines 391-421): the base options plus the
stored mapper reference and the pass-through nested-update policy flags.
(`role`, `collection_class` and `getter` are stored the same way; only `role`
is kept here, the others are consumed by no claim.) -/
structure NestedFieldOpts extends FieldOpts where
  mapper : MapperRef
  role : String
  allow_updates : Bool
  allow_updates_in_place : Bool
  allow_partial_updates : Bool
  allow_create : Bool

/-- A `Nested` field instance. -/
structure NestedField where
  opts : NestedFieldOpts

/-- `Nested` construction (`NestedFieldOpts.__init__`, `field.py` lines
397-421, via `Field.__init__`): the mapper reference is stored verbatim --
nothing consults the mapper registry, which is not even an input -- and the
inherited `validate` hook is a no-op, so construction never raises. -/
def Nested.construct (mapper_or_mapper_name : MapperRef) (a : OptArgs) :
    Except KimError NestedField :=
  .ok { opts := { toFieldOpts := FieldOpts.ofArgs a,
                  mapper := mapper_or_mapper_name,
                  role := "__default__",
                  allow_updates := false,
                  allow_updates_in_place := false,
                  allow_partial_updates := false,
                  allow_create := false } }

/-- `Nested.get_mapper` (`field.py` lines 449-468): resolve the stored mapper
reference against the registry, now -- and only now -- consulting it. -/
def NestedField.get_mapper (f : NestedField) (reg : Registry) : Except KimError MapperRef :=
  get_mapper_from_registry reg f.opts.mapper

/-- The first argument of `Collection` (`field.py`): either a genuine `Field`
instance, or any other Python object -- a string, a number, `None` -- which
carries no `name` attribute, so that attribute access on it raises
`AttributeError`. -/
inductive CollectionArg where
  | field (f : KimField)
  | other

/-- A constructed `Collection` field: the collection's own options, the inner
field (marked `_is_wrapped`), and `unique_on`.  (The `set_name`/`get_name`
proxies to the inner field are consumed by no claim and are not modelled.) -/
structure CollectionField where
  opts : FieldOpts
  field : KimField
  unique_on : Option String

/-- `Collection` construction (`CollectionFieldOpts.__init__`, `field.py` lines
477-496, via `Field.__init__`).  The source probes `self.field.name` inside
`try/except FieldError` *before* anything else:

* on a non-`Field` argument the probe raises `AttributeError`, which the
  `except FieldError` clause does not catch and `Field.__init__` (which catches
  only `FieldOptsError`) lets escape -- `validate`'s isinstance check is never
  reached;
* on a `Field` whose name resolves, the `else:` clause raises the wrapped-field
  `FieldError`;
* on a `Field` whose name probe raises `FieldError`, the exception is swallowed,
  the inner field is marked `_is_wrapped` and construction succeeds
  (`validate`'s isinstance check passes). -/
def Collection.construct (arg : CollectionArg) (unique_on : Option String)
    (a : OptArgs) : Except KimError CollectionField :=
  match arg with
  | .other => .error .attributeError
  | .field f =>
      match f.name with
      | .ok _ =>
          .error (.fieldError "name/attribute_name/source should not be passed to a wrapped field.")
      | .error _ =>
          .ok { opts := FieldOpts.ofArgs a,
                field := { f with opts := { f.opts with _is_wrapped := true } },
                unique_on := unique_on }

/-- `Nested.construct` never raises (checked as a boolean so the fact can be
evaluated on concrete inputs). -/
def Nested.constructOk (m : MapperRef) (a : OptArgs) : Bool :=
  match Nested.construct m a with
  | .ok _ => true
  | .error _ => false

/-- Whether a pipe call raised an exception. -/
def raisesError : PipeResult → Bool
  | .error _ => true
  | .ok _ => false

/-- Whether a `Collection` construction succeeded with the inner field marked
`_is_wrapped`. -/
def collectionInnerWrapped : Except KimError CollectionField → Bool
  | .ok c => c.field.opts._is_wrapped
  | .error _ => false

/-! ## Sample fields used by witnesses and counterexamples -/

/-- A field named `n` with all other options at their defaults
(`required=True`, no default, `allow_none=True`). -/
def sampleField : KimField :=
  { opts := FieldOpts.ofArgs { name := some "n" } }

/-- A field marked `_is_wrapped`, as the inner field of a `Collection` is. -/
def wrappedField : KimField :=
  { opts := FieldOpts.ofArgs { _is_wrapped := true } }

/-- A non-required read-only field named `id`. -/
def roField : KimField :=
  { opts := FieldOpts.ofArgs { name := some "id", required := false, read_only := true } }

/-- A read-only field named `n` (all other options default). -/
def roNamedField : KimField :=
  { opts := FieldOpts.ofArgs { name := some "n", read_only := true } }

/-- A field named `n` with `choices={'5'}` (as text). -/
def strChoiceField : KimField :=
  { opts := FieldOpts.ofArgs { name := some "n", choices := some [.str "5"] } }

/-- A field named `n` with `choices={'a'}`. -/
def choicesField : KimField :=
  { opts := FieldOpts.ofArgs { name := some "n", choices := some [.str "a"] } }

/-- A `Field` instance constructed with a name (so its `name` property
resolves). -/
def innerNamed : KimField :=
  { opts := FieldOpts.ofArgs { name := some "x" } }

/-- A `Field` instance constructed without name or attribute_name (so its
`name` property raises `FieldError`). -/
def innerBare : KimField :=
  { opts := FieldOpts.ofArgs {} }

/-! ## Helper lemmas -/

/-- A value whose `isNone` test is true is `Value.none`. -/
theorem Value.isNone_iff (v : Value) : v.isNone = true ↔ v = .none := by
  cases v <;> simp [Value.isNone]

/-- `Value.none` passes the `is None` test. -/
theorem Value.isNone_none : Value.isNone Value.none = true := rfl

/-- Python `None` is falsy. -/
theorem pyTruthy_none : pyTruthy Option.none = false := rfl

/-- Running an appended pipe list runs the first list and, on success, the
second from the resulting session; a raised exception short-circuits. -/
theorem runPipes_append (ps qs : List Pipe) (s : Session) :
    runPipes (ps ++ qs) s =
      match runPipes ps s with
      | .ok s' => runPipes qs s'
      | .error e => .error e := by
  induction ps generalizing s with
  | nil => simp [runPipes]
  | cons p ps ih =>
      simp only [List.cons_append, runPipes]
      cases p.run s with
      | ok r => simp [ih]
      | error e => simp

/-- `get_data_from_name` only ever reassigns `session.data`: on success the
resulting session carries the field and output it started with, and so does
the session raised with an exception. -/
theorem get_data_from_name_frame (s : Session) :
    (∀ s' v, Pipe.run get_data_from_name s = .ok (s', v) →
        s'.field = s.field ∧ s'.output = s.output) ∧
    (∀ e s', Pipe.run get_data_from_name s = .error (e, s') →
        s'.field = s.field ∧ s'.output = s.output) := by
  constructor
  · intro s' v h
    simp only [Pipe.run, get_data_from_name] at h
    split at h
    · simp only [get_data_from_name_func] at h
      split at h
      · cases h with | refl => exact ⟨rfl, rfl⟩
      · split at h
        · cases h
        · split at h
          · split at h
            · cases h
            · split at h
              · cases h with | refl => exact ⟨rfl, rfl⟩
              · split at h
                · cases h
                · cases h with | refl => exact ⟨rfl, rfl⟩
          · cases h with | refl => exact ⟨rfl, rfl⟩
    · split at h
      · simp only [get_data_from_name_func] at h
        split at h
        · cases h with | refl => exact ⟨rfl, rfl⟩
        · split at h
          · cases h
          · split at h
            · split at h
              · cases h
              · split at h
                · cases h with | refl => exact ⟨rfl, rfl⟩
                · split at h
                  · cases h
                  · cases h with | refl => exact ⟨rfl, rfl⟩
            · cases h with | refl => exact ⟨rfl, rfl⟩
      · cases h with | refl => exact ⟨rfl, rfl⟩
  · intro e s' h
    simp only [Pipe.run, get_data_from_name] at h
    split at h
    · simp only [get_data_from_name_func] at h
      split at h
      · cases h
      · split at h
        · cases h with | refl => exact ⟨rfl, rfl⟩
        · split at h
          · split at h
            · cases h with | refl => exact ⟨rfl, rfl⟩
            · split at h
              · cases h
              · split at h
                · cases h with | refl => exact ⟨rfl, rfl⟩
                · cases h
          · cases h
    · split at h
      · simp only [get_data_from_name_func] at h
        split at h
        · cases h
        · split at h
          · cases h with | refl => exact ⟨rfl, rfl⟩
          · split at h
            · split at h
              · cases h with | refl => exact ⟨rfl, rfl⟩
              · split at h
                · cases h
                · split at h
                  · cases h with | refl => exact ⟨rfl, rfl⟩
                  · cases h
            · cases h
      · cases h

/-! ## Claim theorems -/

/-- Claim C6: for every `Pipe` and session, when `session.data` is not `None`
the wrapped function is invoked and its result returned; when it is `None` and
`run_if_none` is false the pipe does nothing and returns `session.data`
unchanged; when it is `None` and `run_if_none` is true the wrapped function is
still invoked. -/
theorem C6_pipe_run_contract (p : Pipe) (s : Session) :
    (s.data.isNone = false → p.run s = p.func s) ∧
    (s.data.isNone = true → p.run_if_none = false → p.run s = .ok (s, s.data)) ∧
    (s.data.isNone = true → p.run_if_none = true → p.run s = p.func s) := by
  refine ⟨fun h => ?_, fun h h' => ?_, fun h h' => ?_⟩
  · simp [Pipe.run, h]
  · simp [Pipe.run, h, h']
  · simp [Pipe.run, h, h']

/-- Witness for C6: the three branches at concrete pipes and sessions
(`is_valid_string` has `run_if_none=False`, `update_output_to_name` has
`run_if_none=True`). -/
theorem C6_pipe_run_contract_witness :
    Pipe.run is_valid_string { field := sampleField, data := .str "x", output := .dict .nil } =
      is_valid_string.func { field := sampleField, data := .str "x", output := .dict .nil } ∧
    Pipe.run is_valid_string { field := sampleField, data := .none, output := .dict .nil } =
      .ok ({ field := sampleField, data := .none, output := .dict .nil }, Value.none) ∧
    Pipe.run update_output_to_name { field := sampleField, data := .none, output := .dict .nil } =
      update_output_to_name.func { field := sampleField, data := .none, output := .dict .nil } :=
  ⟨(C6_pipe_run_contract _ _).1 rfl,
   (C6_pipe_run_contract _ _).2.1 rfl rfl,
   (C6_pipe_run_contract _ _).2.2 rfl rfl⟩

/-- Claim C10: for a field whose options are marked `_is_wrapped` (the inner
field of a `Collection`), the `get_data_from_name` pipe returns `session.data`
unchanged without name-based extraction -- so it never raises the required or
none-not-allowed error and never substitutes the configured default, even when
the element value is null. -/
theorem C10_wrapped_field_passthrough (s : Session)
    (h : s.field.opts._is_wrapped = true) :
    Pipe.run get_data_from_name s = .ok (s, s.data) := by
  by_cases hd : s.data.isNone
  · simp [Pipe.run, hd, get_data_from_name]
  · simp [Pipe.run, hd, get_data_from_name, get_data_from_name_func, h]

/-- Witness for C10: a wrapped field (with a configured default and
`required=True`, which are both ignored) passes a null element value through
untouched, and a non-null one likewise. -/
theorem C10_wrapped_field_passthrough_witness :
    Pipe.run get_data_from_name { field := wrappedField, data := .str "x", output := .dict .nil } =
      .ok ({ field := wrappedField, data := .str "x", output := .dict .nil }, .str "x") ∧
    Pipe.run get_data_from_name { field := wrappedField, data := .none, output := .dict .nil } =
      .ok ({ field := wrappedField, data := .none, output := .dict .nil }, Value.none) :=
  ⟨C10_wrapped_field_passthrough _ rfl, C10_wrapped_field_passthrough _ rfl⟩

/-- Claim C1: in `get_data_from_name`, for a non-wrapped field whose extracted
value is null, the outcome follows the cascade exactly: required with no
default raises the required error; otherwise a configured default is
substituted as `session.data` without error; otherwise `allow_none=False`
raises the none-not-allowed error; otherwise `session.data` is left null. -/
theorem C1_null_input_cascade (s : Session) (nm : String)
    (hw : s.field.opts._is_wrapped = false)
    (hname : s.field.name = .ok nm)
    (hd : s.data.isNone = false)
    (hext : (attr_or_key s.data nm).isNone = true) :
    (s.field.opts.required = true → s.field.opts.default.isNone = true →
        Pipe.run get_data_from_name s = .error (.fieldInvalid "required", s)) ∧
    (s.field.opts.default.isNone = false →
        Pipe.run get_data_from_name s =
          .ok ({ s with data := s.field.opts.default }, s.field.opts.default)) ∧
    (s.field.opts.required = false → s.field.opts.default.isNone = true →
        s.field.opts.allow_none = false →
        Pipe.run get_data_from_name s = .error (.fieldInvalid "none_not_allowed", s)) ∧
    (s.field.opts.required = false → s.field.opts.default.isNone = true →
        s.field.opts.allow_none = true →
        Pipe.run get_data_from_name s = .ok ({ s with data := .none }, .none)) := by
  have hv : attr_or_key s.data nm = .none := (Value.isNone_iff _).mp hext
  refine ⟨fun h₁ h₂ => ?_, fun h₁ => ?_, fun h₁ h₂ h₃ => ?_, fun h₁ h₂ h₃ => ?_⟩
  · simp [Pipe.run, hd, get_data_from_name, get_data_from_name_func, hw, hname, hv,
      Value.isNone_none, h₁, h₂]
  · simp [Pipe.run, hd, get_data_from_name, get_data_from_name_func, hw, hname, hv,
      Value.isNone_none, h₁]
  · simp [Pipe.run, hd, get_data_from_name, get_data_from_name_func, hw, hname, hv,
      Value.isNone_none, h₁, h₂, h₃]
  · simp [Pipe.run, hd, get_data_from_name, get_data_from_name_func, hw, hname, hv,
      Value.isNone_none, h₁, h₂, h₃]

/-- Witness for C1: `sampleField` is required with no default; marshaling an
empty input dict raises the required error. -/
theorem C1_null_input_cascade_witness :
    Pipe.run get_data_from_name { field := sampleField, data := .dict .nil, output := .dict .nil } =
      .error (.fieldInvalid "required", { field := sampleField, data := .dict .nil, output := .dict .nil }) :=
  (C1_null_input_cascade { field := sampleField, data := .dict .nil, output := .dict .nil }
    "n" rfl rfl rfl rfl).1 rfl rfl

/-- Claim C4 counterexample: `choicesField` has `choices={'a'}` configured and
`session.data` is null; the claim says the pipe raises invalid-choice, but the
`@pipe()` wrapper has `run_if_none=False`, so the pipe body is skipped entirely
and no error is raised. -/
theorem C4_counterexample :
    choicesField.opts.choices = some [.str "a"] ∧
    Pipe.run is_valid_choice { field := choicesField, data := .none, output := .dict .nil } =
      .ok ({ field := choicesField, data := .none, output := .dict .nil }, Value.none) ∧
    raisesError
      (Pipe.run is_valid_choice { field := choicesField, data := .none, output := .dict .nil }) =
      false :=
  ⟨rfl, rfl, rfl⟩

/-- Claim C4 as amended: with `choices` configured the pipe raises
invalid-choice exactly when `session.data` is non-null and not a member of the
set; a member passes through unchanged; null data skips the pipe without
raising (because `run_if_none` is false); and with no `choices` configured the
pipe never raises. -/
theorem C4_choice_validation (s : Session) (cs : List Value)
    (hc : s.field.opts.choices = some cs) :
    (s.data.isNone = false → valueMem s.data cs = false →
        Pipe.run is_valid_choice s = .error (.fieldInvalid "invalid_choice", s)) ∧
    (s.data.isNone = false → valueMem s.data cs = true →
        Pipe.run is_valid_choice s = .ok (s, s.data)) ∧
    (s.data.isNone = true → Pipe.run is_valid_choice s = .ok (s, s.data)) ∧
    (∀ s' : Session, s'.field.opts.choices = Option.none →
        raisesError (Pipe.run is_valid_choice s') = false) := by
  refine ⟨fun h₁ h₂ => ?_, fun h₁ h₂ => ?_, fun h₁ => ?_, fun s' h' => ?_⟩
  · simp [Pipe.run, h₁, is_valid_choice, is_valid_choice_func, hc, h₂]
  · simp [Pipe.run, h₁, is_valid_choice, is_valid_choice_func, hc, h₂]
  · simp [Pipe.run, h₁, is_valid_choice]
  · by_cases hd : s'.data.isNone
    · simp [Pipe.run, hd, is_valid_choice, raisesError]
    · simp [Pipe.run, hd, is_valid_choice, is_valid_choice_func, h', raisesError]

/-- Witness for C4 (amended): with `choices={'a'}`, the non-member `'b'`
raises invalid-choice and the member `'a'` passes unchanged. -/
theorem C4_choice_validation_witness :
    Pipe.run is_valid_choice { field := choicesField, data := .str "b", output := .dict .nil } =
      .error (.fieldInvalid "invalid_choice",
        { field := choicesField, data := .str "b", output := .dict .nil }) ∧
    Pipe.run is_valid_choice { field := choicesField, data := .str "a", output := .dict .nil } =
      .ok ({ field := choicesField, data := .str "a", output := .dict .nil }, .str "a") :=
  ⟨(C4_choice_validation { field := choicesField, data := .str "b", output := .dict .nil }
      [.str "a"] rfl).1 rfl rfl,
   (C4_choice_validation { field := choicesField, data := .str "a", output := .dict .nil }
      [.str "a"] rfl).2.1 rfl rfl⟩

/-- Claim C5: a pipe raising the stop-pipeline signal makes `Pipeline.run`
halt immediately (the remaining pipes do not execute: any raised exception
short-circuits the rest of an appended pipe list) and return the session's
output object normally; a pipe raising the invalid signal makes the exception
propagate out of `Pipeline.run` uncaught. -/
theorem C5_stop_and_invalid :
    (∀ (ps qs : List Pipe) (s : Session) (e : KimError × Session),
        runPipes ps s = .error e → runPipes (ps ++ qs) s = .error e) ∧
    (∀ (pl : Pipeline) (f : KimField) (d o : Value) (s' : Session),
        runPipes pl.allPipes { field := f, data := d, output := o } =
          .error (.stopPipelineExecution, s') →
        pl.run f d o = .ok s'.output) ∧
    (∀ (pl : Pipeline) (f : KimField) (d o : Value) (t : String) (s' : Session),
        runPipes pl.allPipes { field := f, data := d, output := o } =
          .error (.fieldInvalid t, s') →
        pl.run f d o = .error (.fieldInvalid t, s')) := by
  refine ⟨fun ps qs s e h => ?_, fun pl f d o s' h => ?_, fun pl f d o t s' h => ?_⟩
  · rw [runPipes_append, h]
  · simp [Pipeline.run, h]
  · simp [Pipeline.run, h]

/-- Witness for C5: the read-only field `roNamedField` stops its marshal
pipeline after extracting `'v'`, and `Pipeline.run` returns the untouched
output; the required field `sampleField` on an empty input raises the invalid
signal, which propagates out of `Pipeline.run`. -/
theorem C5_stop_and_invalid_witness :
    MarshalPipeline.run roNamedField (.dict (.cons "n" (.str "v") .nil)) (.dict .nil) =
      .ok (.dict .nil) ∧
    MarshalPipeline.run sampleField (.dict .nil) (.dict .nil) =
      .error (.fieldInvalid "required",
        { field := sampleField, data := .dict .nil, output := .dict .nil }) :=
  ⟨C5_stop_and_invalid.2.1 MarshalPipeline roNamedField
      (.dict (.cons "n" (.str "v") .nil)) (.dict .nil)
      { field := roNamedField, data := .str "v", output := .dict .nil } rfl,
   C5_stop_and_invalid.2.2 MarshalPipeline sampleField (.dict .nil) (.dict .nil) "required"
      { field := sampleField, data := .dict .nil, output := .dict .nil } rfl⟩

/-- Claim C9: option-name resolution follows the 3-way fallback -- an explicit
name always wins, a missing name falls back to `attribute_name`, an explicit
source always wins, a missing source falls back to the resolved name -- and a
field constructed with neither name nor attribute_name raises `FieldError`
from its `name` property. -/
theorem C9_name_resolution (a : OptArgs) :
    (pyTruthy a.name = true → (FieldOpts.ofArgs a).name = a.name) ∧
    (a.name = Option.none → (FieldOpts.ofArgs a).name = a.attribute_name) ∧
    (pyTruthy a.source = true → (FieldOpts.ofArgs a).source = a.source) ∧
    (a.source = Option.none → (FieldOpts.ofArgs a).source = (FieldOpts.ofArgs a).name) ∧
    (a.name = Option.none → a.attribute_name = Option.none →
        KimField.name { opts := FieldOpts.ofArgs a } =
          .error (.fieldError "Field requires Field.name or Field.attribute_name")) := by
  refine ⟨fun h₁ => ?_, fun h₁ => ?_, fun h₁ => ?_, fun h₁ => ?_, fun h₁ h₂ => ?_⟩
  · simp [FieldOpts.ofArgs, FieldOpts.set_name, pyOr, pyTruthy_none, h₁]
  · simp [FieldOpts.ofArgs, FieldOpts.set_name, pyOr, pyTruthy_none, h₁]
  · simp [FieldOpts.ofArgs, FieldOpts.set_name, pyOr, pyTruthy_none, h₁]
  · simp [FieldOpts.ofArgs, FieldOpts.set_name, pyOr, pyTruthy_none, h₁]
  · simp [KimField.name, FieldOpts.get_name, FieldOpts.ofArgs, FieldOpts.set_name, pyOr,
      pyTruthy_none, h₁, h₂]

/-- Witness for C9: explicit name and source win; a field with only an
`attribute_name` takes it as its name and source; a field with neither name
nor attribute_name raises `FieldError` from `Field.name`. -/
theorem C9_name_resolution_witness :
    (FieldOpts.ofArgs { name := some "a", source := some "s" }).name = some "a" ∧
    (FieldOpts.ofArgs { name := some "a", source := some "s" }).source = some "s" ∧
    (FieldOpts.ofArgs { attribute_name := some "b" }).name = some "b" ∧
    (FieldOpts.ofArgs { attribute_name := some "b" }).source = some "b" ∧
    KimField.name { opts := FieldOpts.ofArgs {} } =
      .error (.fieldError "Field requires Field.name or Field.attribute_name") := by
  refine ⟨(C9_name_resolution _).1 rfl, (C9_name_resolution _).2.2.1 rfl, ?_, ?_,
    (C9_name_resolution _).2.2.2.2 rfl rfl⟩
  · exact (C9_name_resolution { attribute_name := some "b" }).2.1 rfl
  · exact ((C9_name_resolution { attribute_name := some "b" }).2.2.2.1 rfl).trans
      ((C9_name_resolution { attribute_name := some "b" }).2.1 rfl)

/-- Claim C7: constructing a `Nested` field never consults the mapper
registry -- construction succeeds for every mapper reference, registered or
not -- and the configuration (field) error for an unresolvable mapper is
raised only when `get_mapper` is invoked. -/
theorem C7_nested_lazy_resolution (n : String) (a : OptArgs) (reg : Registry) :
    (∀ (m : MapperRef) (a' : OptArgs), Nested.constructOk m a' = true) ∧
    (∀ fld : NestedField, Nested.construct (.byName n) a = .ok fld →
        (n ∉ reg → fld.get_mapper reg = .error (.fieldError "mapper not found in registry")) ∧
        (n ∈ reg → fld.get_mapper reg = .ok (.byName n))) := by
  refine ⟨fun m a' => rfl, fun fld h => ?_⟩
  have hm : fld.opts.mapper = .byName n := by
    cases h; rfl
  refine ⟨fun hn => ?_, fun hn => ?_⟩
  · simp [NestedField.get_mapper, get_mapper_from_registry, hm, hn]
  · simp [NestedField.get_mapper, get_mapper_from_registry, hm, hn]

/-- Witness for C7: `Nested('DoesNotExist', name='x')` constructs fine, and
resolving it against an empty registry raises the field error. -/
theorem C7_nested_lazy_resolution_witness :
    Nested.constructOk (.byName "DoesNotExist") { name := some "x" } = true ∧
    NestedField.get_mapper
        { opts := { toFieldOpts := FieldOpts.ofArgs { name := some "x" },
                    mapper := .byName "DoesNotExist", role := "__default__",
                    allow_updates := false, allow_updates_in_place := false,
                    allow_partial_updates := false, allow_create := false } } [] =
      .error (.fieldError "mapper not found in registry") :=
  ⟨(C7_nested_lazy_resolution "DoesNotExist" { name := some "x" } []).1 _ _,
   ((C7_nested_lazy_resolution "DoesNotExist" { name := some "x" } []).2 _ rfl).1
      (List.not_mem_nil _)⟩

/-- Claim C8, evaluated at the inputs that decide it.  An inner `Field` that
already resolves a name raises the wrapped-field `FieldError`, and a
successful construction marks the inner field `_is_wrapped` -- those two parts
of the claim hold.  But a first argument that is not a `Field` (any object
without a `name` attribute, e.g. the string `'foo'`) makes construction raise
Python's `AttributeError` from the `self.field.name` probe, not the
configuration error that `validate`'s isinstance check intends to raise: the
probe runs first and its `except FieldError` clause does not catch
`AttributeError`. -/
theorem C8_collection_construction :
    Collection.construct .other Option.none { name := some "c" } =
      .error .attributeError ∧
    Collection.construct (.field innerNamed) Option.none { name := some "c" } =
      .error (.fieldError "name/attribute_name/source should not be passed to a wrapped field.") ∧
    collectionInnerWrapped
        (Collection.construct (.field innerBare) Option.none { name := some "c" }) = true :=
  ⟨rfl, rfl, rfl⟩

/-- `is_valid_choice` either passes the session through unchanged or raises
invalid-choice with the session unchanged -- it never mutates the session. -/
theorem is_valid_choice_cases (s : Session) :
    Pipe.run is_valid_choice s = .ok (s, s.data) ∨
    Pipe.run is_valid_choice s = .error (.fieldInvalid "invalid_choice", s) := by
  by_cases hd : s.data.isNone
  · left; simp [Pipe.run, hd, is_valid_choice]
  · cases hc : s.field.opts.choices with
    | none =>
        left
        simp [Pipe.run, hd, is_valid_choice, is_valid_choice_func, hc]
    | some cs =>
        by_cases hm : valueMem s.data cs
        · left
          simp [Pipe.run, hd, is_valid_choice, is_valid_choice_func, hc, hm]
        · right
          simp [Pipe.run, hd, is_valid_choice, is_valid_choice_func, hc, hm]

/-- Claim C2 counterexample: `roField` is read-only, yet marshaling an empty
input dict (so the extracted value is null) *does* write to the output: the
null value skips the `read_only` pipe (whose `run_if_none` is false) while
`update_output_to_name` (whose `run_if_none` is true) still runs, writing
`None` under the field name. -/
theorem C2_counterexample :
    roField.opts.read_only = true ∧
    MarshalPipeline.run roField (.dict .nil) (.dict .nil) =
      .ok (.dict (.cons "id" .none .nil)) ∧
    Value.beq (Value.dict (.cons "id" .none .nil)) (Value.dict .nil) = false :=
  ⟨rfl, rfl, rfl⟩

/-- Claim C2 as amended: a read-only field's marshal pipeline (base or String)
leaves the output object unchanged whenever the input pipe raises, and
whenever it succeeds with a non-null value in flight (the read-only
short-circuit then stops the pipeline before any output pipe); only a null
in-flight value escapes the short-circuit and reaches the output write. -/
theorem C2_read_only_not_written (f : KimField) (d o : Value)
    (hro : f.opts.read_only = true) :
    (∀ (s₁ : Session) (v : Value),
        Pipe.run get_data_from_name { field := f, data := d, output := o } = .ok (s₁, v) →
        s₁.data.isNone = false →
        resultOutput (MarshalPipeline.run f d o) = o ∧
        resultOutput (StringMarshalPipeline.run f d o) = o) ∧
    (∀ (e : KimError) (s' : Session),
        Pipe.run get_data_from_name { field := f, data := d, output := o } = .error (e, s') →
        resultOutput (MarshalPipeline.run f d o) = o ∧
        resultOutput (StringMarshalPipeline.run f d o) = o) := by
  constructor
  · intro s₁ v h hd
    obtain ⟨hf, ho⟩ := (get_data_from_name_frame _).1 s₁ v h
    have hstop : Pipe.run read_only s₁ = .error (.stopPipelineExecution, s₁) := by
      simp [Pipe.run, hd, read_only, read_only_func, hf, hro]
    have hivs : Pipe.run is_valid_string s₁ = .ok (s₁, .str (text_type s₁.data)) := by
      simp [Pipe.run, hd, is_valid_string, is_valid_string_func]
    constructor
    · have h1 : runPipes MarshalPipeline.allPipes { field := f, data := d, output := o } =
          .error (.stopPipelineExecution, s₁) := by
        simp [MarshalPipeline, Pipeline.allPipes, runPipes, h, hstop]
      simp [Pipeline.run, h1, resultOutput, ho]
    · rcases is_valid_choice_cases s₁ with hivc | hivc
      · have h1 : runPipes StringMarshalPipeline.allPipes
            { field := f, data := d, output := o } =
            .error (.stopPipelineExecution, s₁) := by
          simp [StringMarshalPipeline, MarshalPipeline, Pipeline.allPipes, runPipes, h,
            hivs, hivc, hstop]
        simp [Pipeline.run, h1, resultOutput, ho]
      · have h1 : runPipes StringMarshalPipeline.allPipes
            { field := f, data := d, output := o } =
            .error (.fieldInvalid "invalid_choice", s₁) := by
          simp [StringMarshalPipeline, MarshalPipeline, Pipeline.allPipes, runPipes, h,
            hivs, hivc]
        simp [Pipeline.run, h1, resultOutput, ho]
  · intro e s' h
    obtain ⟨hf, ho⟩ := (get_data_from_name_frame _).2 e s' h
    have h1 : runPipes MarshalPipeline.allPipes { field := f, data := d, output := o } =
        .error (e, s') := by
      simp [MarshalPipeline, Pipeline.allPipes, runPipes, h]
    have h2 : runPipes StringMarshalPipeline.allPipes { field := f, data := d, output := o } =
        .error (e, s') := by
      simp [StringMarshalPipeline, MarshalPipeline, Pipeline.allPipes, runPipes, h]
    cases e <;> simp [Pipeline.run, h1, h2, resultOutput, ho]

/-- Witness for C2 (amended): the read-only field `roNamedField` marshaling a
present, non-null value leaves the empty output dict untouched in both the
base and the String marshal pipeline. -/
theorem C2_read_only_not_written_witness :
    resultOutput (MarshalPipeline.run roNamedField
        (.dict (.cons "n" (.str "v") .nil)) (.dict .nil)) = .dict .nil ∧
    resultOutput (StringMarshalPipeline.run roNamedField
        (.dict (.cons "n" (.str "v") .nil)) (.dict .nil)) = .dict .nil :=
  (C2_read_only_not_written roNamedField (.dict (.cons "n" (.str "v") .nil)) (.dict .nil)
      rfl).1
    { field := roNamedField, data := .str "v", output := .dict .nil } (.str "v") rfl rfl

/-- Claim C3 counterexample: `strChoiceField` has `choices={'5'}`; marshaling
`{'n': 5}` coerces `5` to the text `'5'`, which *is* in the choice set -- so
under the claim the choice check passes.  In fact the pipeline raises
invalid-choice: `is_valid_string` never assigns its coerced result to
`session.data`, so the choice check ran on the raw integer `5`. -/
theorem C3_counterexample :
    text_type (.int 5) = "5" ∧
    valueMem (.str "5") [.str "5"] = true ∧
    strChoiceField.opts.choices = some [.str "5"] ∧
    StringMarshalPipeline.run strChoiceField (.dict (.cons "n" (.int 5) .nil)) (.dict .nil) =
      .error (.fieldInvalid "invalid_choice",
        { field := strChoiceField, data := .int 5, output := .dict .nil }) :=
  ⟨rfl, rfl, rfl, rfl⟩

/-- Claim C3 as amended: `is_valid_string` runs before the choice check and
returns the coerced text of the value, but leaves the session -- in particular
`session.data` -- unchanged; consequently the choice check and every later
pipe, including the output write, operate on the raw input value: with no
choices configured, the String marshal pipeline writes the raw extracted value
(not its text coercion) to the output. -/
theorem C3_string_validation :
    (∀ s : Session, s.data.isNone = false →
        Pipe.run is_valid_string s = .ok (s, .str (text_type s.data))) ∧
    (∀ (f : KimField) (d : Value) (entries : Entries) (nm : String),
        f.opts._is_wrapped = false → f.name = .ok nm → d.isNone = false →
        (attr_or_key d nm).isNone = false → f.opts.choices = Option.none →
        f.opts.read_only = false →
        StringMarshalPipeline.run f d (.dict entries) =
          .ok (.dict (entries.set nm (attr_or_key d nm)))) := by
  constructor
  · intro s hd
    simp [Pipe.run, hd, is_valid_string, is_valid_string_func]
  · intro f d entries nm hw hname hd hv hc hro
    have hgdn : Pipe.run get_data_from_name { field := f, data := d, output := .dict entries } =
        .ok ({ field := f, data := attr_or_key d nm, output := .dict entries },
          attr_or_key d nm) := by
      simp [Pipe.run, hd, get_data_from_name, get_data_from_name_func, hw, hname, hv]
    have hivs : Pipe.run is_valid_string
        { field := f, data := attr_or_key d nm, output := .dict entries } =
        .ok ({ field := f, data := attr_or_key d nm, output := .dict entries },
          .str (text_type (attr_or_key d nm))) := by
      simp [Pipe.run, hv, is_valid_string, is_valid_string_func]
    have hivc : Pipe.run is_valid_choice
        { field := f, data := attr_or_key d nm, output := .dict entries } =
        .ok ({ field := f, data := attr_or_key d nm, output := .dict entries },
          attr_or_key d nm) := by
      simp [Pipe.run, hv, is_valid_choice, is_valid_choice_func, hc]
    have hrop : Pipe.run read_only
        { field := f, data := attr_or_key d nm, output := .dict entries } =
        .ok ({ field := f, data := attr_or_key d nm, output := .dict entries },
          attr_or_key d nm) := by
      simp [Pipe.run, hv, read_only, read_only_func, hro]
    have hupd : Pipe.run update_output_to_name
        { field := f, data := attr_or_key d nm, output := .dict entries } =
        .ok ({ field := f, data := attr_or_key d nm,
               output := .dict (entries.set nm (attr_or_key d nm)) }, .none) := by
      simp [Pipe.run, hv, update_output_to_name, update_output_to_name_func, hname]
    have h1 : runPipes StringMarshalPipeline.allPipes
        { field := f, data := d, output := .dict entries } =
        .ok { field := f, data := attr_or_key d nm,
              output := .dict (entries.set nm (attr_or_key d nm)) } := by
      simp [StringMarshalPipeline, MarshalPipeline, Pipeline.allPipes, runPipes, hgdn,
        hivs, hivc, hrop, hupd]
    simp [Pipeline.run, h1]

/-- Witness for C3 (amended): coercing the integer `7` yields the text `'7'`
but the session is unchanged, and the full String marshal pipeline writes the
raw integer `7` -- not the text `'7'` -- into the output. -/
theorem C3_string_validation_witness :
    Pipe.run is_valid_string { field := sampleField, data := .int 7, output := .dict .nil } =
      .ok ({ field := sampleField, data := .int 7, output := .dict .nil }, .str "7") ∧
    StringMarshalPipeline.run sampleField (.dict (.cons "n" (.int 7) .nil)) (.dict .nil) =
      .ok (.dict (.cons "n" (.int 7) .nil)) :=
  ⟨C3_string_validation.1 { field := sampleField, data := .int 7, output := .dict .nil } rfl,
   C3_string_validation.2 sampleField (.dict (.cons "n" (.int 7) .nil)) .nil "n"
      rfl rfl rfl rfl rfl rfl⟩

end Kim
